import Mathlib

/-!
# Verification of the WorldWind WebView native layer (Windows)

This file gives a shallow embedding, in Lean 4, of the Windows WebView native
library of NASA WorldWind Java (`lib-external/webview/windows`), and proves or
refutes a list of claims about its behaviour.

Conventions used throughout:

* Wide C strings (`wchar_t*`) are modelled as `List Char`; `wcslen` of a
  terminated buffer is `List.length` (strings are assumed NUL-free, as all the
  strings handled by this code are).
* `HRESULT` values are modelled by the inductive `HResult` below; the COM
  `SUCCEEDED` macro (which tests the sign bit, so that it accepts both `S_OK`
  and `S_FALSE`) is modelled by `HResult.succeeded`.
* Machine integers (`int`, `long`, the coordinates in `RECT`) are modelled as
  `Int`; the quantities involved (pixel coordinates, buffer sizes) are far from
  overflow in every scenario considered here, and no arithmetic in the modelled
  code relies on wrap-around.
* Null-pointer dereferences (which the C code can actually perform, see
  `WebViewWindow.GetResourceResolver`) are modelled by the `CrashOr` monad-like
  wrapper: `CrashOr.crash` is the access violation.
* The Internet Explorer engine itself (MSHTML / `IWebBrowser2`) is an external
  black box for this library; where its replies matter they are passed in as
  explicit oracle functions (`LoadEnv`, `SizeEnv`, …) so that every theorem
  states precisely which engine behaviour it assumes.
-/

namespace WebView

/-- Subset of `HRESULT` values that appear in the modelled code.  `sOk = S_OK`
(0), `sFalse = S_FALSE` (1), the `e…` constructors are the failure codes
(negative values), and `inetDefaultAction = INET_E_DEFAULT_ACTION` (also a
failure code numerically). -/
inductive HResult where
  | sOk
  | sFalse
  | eFail
  | ePointer
  | eUnexpected
  | eOutOfMemory
  | inetDefaultAction
deriving DecidableEq, Repr

/-- The COM `SUCCEEDED` macro: true exactly for non-negative `HRESULT`s, which
among our constructors are `S_OK` and `S_FALSE`.  In particular
`SUCCEEDED(S_FALSE)` holds -- this fact matters below. -/
def HResult.succeeded : HResult → Bool
  | .sOk => true
  | .sFalse => true
  | _ => false

/-- The COM `FAILED` macro. -/
def HResult.failed (hr : HResult) : Bool := !hr.succeeded

/-- Result of a computation that may dereference a null pointer and crash. -/
inductive CrashOr (α : Type) where
  | crash
  | ok (a : α)
deriving DecidableEq, Repr

/-! ## Resource resolver (WebResourceResolver.cpp)

The Java-side resolver (reached over JNI) is modelled as a function from the
address string to one of three outcomes: a URL, no URL (Java `resolve`
returned `null`), or an error (failure to attach to the JVM /
out of memory while allocating the Java string). -/

/-- Outcome of the host (Java) `WebResourceResolver.resolve` call. -/
inductive ResolveOutcome where
  | url (u : List Char)
  | noUrl
  | error
deriving DecidableEq, Repr

/-- A host resource resolver, as visible from the native side. -/
abbrev Resolver : Type := List Char → ResolveOutcome

/-- `WebResourceResolver::resolve` (WebResourceResolver.cpp lines 85-142).
Takes the resolver behaviour, the address and the caller's buffer capacity
`chResult` (in characters, including the terminator); returns the `HRESULT`,
the string written into the caller's buffer (the function writes
`*result = NULL` first, so the buffer holds the empty string unless the URL is
copied into it), and the value of `*chResult` on return (the function writes
the required count `len + 1` into it only in the buffer-too-small case). -/
def WebResourceResolver.resolve (javaResolve : Resolver) (address : List Char)
    (chResult : Nat) : HResult × List Char × Nat :=
  match javaResolve address with
  | .error => (.eUnexpected, [], chResult)
  | .noUrl => (.sOk, [], chResult)
  | .url u =>
    if u.length + 1 ≤ chResult then (.sOk, u, chResult)
    else (.sFalse, [], u.length + 1)

/-! ## Browser instance lookup and resolver access (WebViewWindow.cpp) -/

/-- The slice of `WebViewWindow` state visible to the protocol handler: the
(reference-counted, possibly null) resource resolver pointer.  The constructor
initialises it to null (`resourceResolver(NULL)`, WebViewWindow.cpp line 146). -/
structure BrowserInstance where
  resourceResolver : Option Resolver

/-- `WebViewWindow::OnSetResourceResolver` (WebViewWindow.cpp lines 782-790):
releases the previous resolver and stores the one passed in the message, which
may be null (plain `setHTMLString` posts `WM_WEBVIEW_SET_RESOURCE_RESOLVER`
with a null `LPARAM`, WindowsWebViewJNI.cpp line 270). -/
def WebViewWindow.OnSetResourceResolver (w : BrowserInstance)
    (r : Option Resolver) : BrowserInstance :=
  { w with resourceResolver := r }

/-- `WebViewWindow::GetResourceResolver` (WebViewWindow.cpp lines 2249-2253):

    *resolver = this->resourceResolver;
    (*resolver)->AddRef();

The stored pointer is dereferenced unconditionally to add a reference; there
is no null branch, so when no resolver has been attached the call is a null
pointer dereference, modelled here as `CrashOr.crash`.  (The `AddRef`
book-keeping itself has no observable effect in this model.) -/
def WebViewWindow.GetResourceResolver (w : BrowserInstance) :
    CrashOr (Option Resolver) :=
  match w.resourceResolver with
  | none => .crash
  | some r => .ok (some r)

/-! ## Reserved-scheme URL parsing (WebViewProtocol.cpp) -/

/-- Decimal value of the maximal leading digit run of `l` (`0` if `l` does not
start with a digit), together with the number of digits consumed.  This is the
`%d` conversion of `swscanf_s` as exercised by `webview://` URLs (whose
authority part is a plain digit run: it is printed with `%u`,
WindowsWebViewJNI.cpp line 311). -/
def scanDecimal : List Char → Nat × Nat
  | [] => (0, 0)
  | c :: rest =>
    if c.isDigit then
      let (v, n) := scanDecimal rest
      -- the value of a digit run d :: ds is d * 10 ^ |ds| + value ds
      ((c.toNat - 48) * 10 ^ n + v, n + 1)
    else (0, 0)

/-- Result of the `path` out-parameter of `ParseWebViewUrl`: left null, a
dangling pointer (`wcschr` returned `NULL` and the code added 1 to it), or a
pointer to the character after the first slash following the authority. -/
inductive PathPtr where
  | null
  | dangling
  | pstr (p : List Char)
deriving DecidableEq, Repr

/-- `WebViewProtocol::ParseWebViewUrl` (WebViewProtocol.cpp lines 102-125).

    swscanf_s(url, L"webview://%d/", webViewId);
    if (*webViewId != 0) {
        wchar_t *authDelim = wcsstr(url, L"//") + 1;
        if (authDelim != NULL)
            *path = wcschr(authDelim + wcslen(L"//"), '/') + 1;
    }

`webViewId` is non-zero only when the URL starts with the literal
`webview://` followed by a digit run of non-zero value, in which case the
first occurrence of `//` is at index 8, `authDelim` points at index 9, and
`wcschr` scans for `'/'` from index 11 on.  If no slash follows, `wcschr`
yields `NULL` and the `+ 1` makes the path pointer dangling. -/
def WebViewProtocol.ParseWebViewUrl (url : List Char) : Nat × PathPtr :=
  let webViewId :=
    if url.take 10 = String.toList "webview://" then (scanDecimal (url.drop 10)).1
    else 0
  if webViewId ≠ 0 then
    match (url.drop 11).findIdx? (· = '/') with
    | none => (webViewId, .dangling)
    | some i => (webViewId, .pstr (url.drop (11 + i + 1)))
  else (webViewId, .null)

/-- Result triple of `ParseUrl`: the returned `HRESULT`, the contents of the
caller's result buffer, and the value stored into `*pcchResult` (`none` when
the function returns without writing it). -/
abbrev ParseResult : Type := HResult × List Char × Option Nat

/-- `WebViewProtocol::ParseUrl` (WebViewProtocol.cpp lines 26-79), for non-null
arguments.  `find` is `WebViewWindow::FindWebView` (the id-to-instance lookup
through the window property list); `cchResult` is the capacity of the caller's
result buffer.

Control flow mirrored from the source:
* empty or null path: return `INET_E_DEFAULT_ACTION`;
* instance found: obtain the resolver via `GetResourceResolver` (which crashes
  on a null resolver, see above); when the resolver call `SUCCEEDED` (note that
  this includes `S_FALSE`, so the `else if (hr == S_FALSE)` branch of the
  source is unreachable) mark the resource found and store
  `wcslen(pwzResult) + 1` into `*pcchResult`;
* resource not found: substitute `about:<path>` if it fits, else return
  `S_FALSE` without storing anything into `*pcchResult`. -/
def WebViewProtocol.ParseUrl (find : Nat → Option BrowserInstance)
    (url : List Char) (cchResult : Nat) : CrashOr ParseResult :=
  let parsed := WebViewProtocol.ParseWebViewUrl url
  match parsed.2 with
  | .dangling => .crash
  | .null => .ok (.inetDefaultAction, [], none)
  | .pstr path =>
    if path.length = 0 then .ok (.inetDefaultAction, [], none)
    else
      let aboutFallback : ParseResult :=
        let len := (String.toList "about:").length + path.length + 1
        if len > cchResult then (.sFalse, [], none)
        else (.sOk, String.toList "about:" ++ path, some len)
      match find parsed.1 with
      | some webViewWnd =>
        match WebViewWindow.GetResourceResolver webViewWnd with
        | .crash => .crash
        | .ok none => .ok aboutFallback
        | .ok (some resolver) =>
          let res := WebResourceResolver.resolve resolver path cchResult
          if res.1.succeeded then .ok (.sOk, res.2.1, some (res.2.1.length + 1))
          else if res.1 = .sFalse then .ok (.sFalse, [], none)
          else .ok aboutFallback
      | none => .ok aboutFallback

/-! ## Claims C1 and C10 -/

/-- C1 (code bug, evaluation at the failing input).  The claim states that when
the caller's output buffer is too small, `ParseUrl` reports the required
character count and returns `S_FALSE`.  At the failing input below -- URL
`webview://42/foo/bar`, instance 42 carrying a resolver that resolves the path
to the 17-character URL `file:/tmp/foo/bar`, output capacity 5 -- the resolver
correctly signals buffer-too-small by returning `S_FALSE` (second conjunct),
but `ParseUrl` treats that `S_FALSE` as success (`SUCCEEDED(S_FALSE)` is true,
so its own `else if (hr == S_FALSE)` branch is unreachable) and returns `S_OK`
with an empty result string and `*pcchResult = 1` instead of `S_FALSE` with
the required count 18 (first conjunct).  In the `about:` fallback path with a
too-small buffer it does return `S_FALSE`, but leaves `*pcchResult` unwritten
instead of storing the required count 14 (third conjunct). -/
theorem c1_parseUrl_bufferTooSmall_misreported :
    WebViewProtocol.ParseUrl
        (fun i => if i = 42 then
          some ⟨some (fun _ => .url (String.toList "file:/tmp/foo/bar"))⟩ else none)
        (String.toList "webview://42/foo/bar") 5
      = .ok (.sOk, [], some 1)
    ∧ (WebResourceResolver.resolve (fun _ => .url (String.toList "file:/tmp/foo/bar"))
        (String.toList "foo/bar") 5).1 = .sFalse
    ∧ WebViewProtocol.ParseUrl (fun _ => none)
        (String.toList "webview://42/foo/bar") 5
      = .ok (.sFalse, [], none) := by
  decide

/-- C10: `GetResourceResolver` has the implicit precondition that a resolver
has been attached: it dereferences the stored pointer unconditionally, so it
crashes on any instance whose resolver is null (first conjunct) and returns
the attached resolver otherwise (second conjunct); and the reserved-scheme
parse path invokes it for any instance found by id -- in particular, parsing a
`webview://` URL addressed to an instance whose resolver is null (as left by a
plain `setHtml`, which posts a null resolver) dereferences the null pointer
(third conjunct). -/
theorem c10_getResourceResolver_null_dereference :
    (∀ w : BrowserInstance, w.resourceResolver = none →
      WebViewWindow.GetResourceResolver w = .crash)
    ∧ (∀ (w : BrowserInstance) (r : Resolver), w.resourceResolver = some r →
      WebViewWindow.GetResourceResolver w = .ok (some r))
    ∧ (∀ (find : Nat → Option BrowserInstance) (url : List Char) (cch id : Nat)
        (p : List Char) (w : BrowserInstance),
      WebViewProtocol.ParseWebViewUrl url = (id, .pstr p) → p ≠ [] →
      find id = some w → w.resourceResolver = none →
      WebViewProtocol.ParseUrl find url cch = .crash) := by
  refine ⟨fun w hw => ?_, fun w r hw => ?_, fun find url cch id p w hparse hp hfind hw => ?_⟩
  · simp [WebViewWindow.GetResourceResolver, hw]
  · simp [WebViewWindow.GetResourceResolver, hw]
  · have hlen : ¬ p.length = 0 := fun h => hp (List.eq_nil_of_length_eq_zero h)
    simp only [WebViewProtocol.ParseUrl, hparse, hlen, if_false, hfind,
      WebViewWindow.GetResourceResolver, hw]

/-- Witness for C10: an instance that carried a resolver and was then addressed
by a plain `setHtml` (null resolver posted) makes the reserved-scheme parse of
`webview://42/foo/bar` dereference a null pointer. -/
theorem c10_getResourceResolver_null_dereference_witness :
    WebViewProtocol.ParseUrl
        (fun i => if i = 42 then
          some (WebViewWindow.OnSetResourceResolver ⟨some (fun _ => .noUrl)⟩ none)
          else none)
        (String.toList "webview://42/foo/bar") 100
      = .crash :=
  c10_getResourceResolver_null_dereference.2.2 _ _ 100 42 (String.toList "foo/bar")
    (WebViewWindow.OnSetResourceResolver ⟨some (fun _ => .noUrl)⟩ none)
    (by decide) (by decide) rfl rfl

/-! ## Navigation history and content loading (WebViewWindow.cpp)

The WebBrowser control's back/forward history (its *travel log*) is an engine
structure reached through `ITravelLogStg`; the library manipulates it through
`EnumEntries` / `CreateEntry` / `RemoveEntry` and navigates with
`IWebBrowser2::GoBack` / `GoForward`.  The engine surface is modelled here by
`EngineNav`: the entries behind the current page (most recent first), the
current page, and the entries ahead of it.  Per the engine behaviour this
library documents and relies on (WebViewWindow.cpp lines 654-656 and 672-677):
the travel log enumeration does not include the current page, and loading
in-memory content through `HTMLMoniker` is not a navigation, so it changes no
travel-log entry. -/

/-- One back/forward history entry (`WebViewTravelLogEntry`,
WebViewWindow.h lines 116-127): a URL and a title. -/
structure TravelLogEntry where
  url : List Char
  title : List Char
deriving DecidableEq, Repr

/-- The engine's navigation state: `back` holds the pages behind the current
one (most recent first), `current` the displayed page, `fwd` the pages ahead
(nearest first). -/
structure EngineNav where
  back : List TravelLogEntry
  current : TravelLogEntry
  fwd : List TravelLogEntry
deriving DecidableEq, Repr

/-- The travel log as enumerated with `TLEF_ABSOLUTE` (oldest entry first; the
current page is not included until the engine navigates away from it,
WebViewWindow.cpp lines 654-656). -/
def EngineNav.travelLogEntries (e : EngineNav) : List TravelLogEntry :=
  e.back.reverse ++ e.fwd

/-- `IWebBrowser2::GoBack`: fails (and leaves the state unchanged) when there
is no earlier entry, otherwise steps the current page back. -/
def EngineNav.goBack (e : EngineNav) : Option EngineNav :=
  match e.back with
  | [] => none
  | b :: rest => some ⟨rest, b, e.current :: e.fwd⟩

/-- `IWebBrowser2::GoForward`: steps the current page forward when a forward
entry exists, otherwise fails leaving the state unchanged (the handler ignores
the returned `HRESULT`, so the failure case is modelled as the identity). -/
def EngineNav.goForward (e : EngineNav) : EngineNav :=
  match e.fwd with
  | [] => e
  | f :: rest => ⟨e.current :: e.back, f, rest⟩

/-- `ITravelLogStg::CreateEntry(url, title, NULL, FALSE, NULL)` with
`fPrepend = FALSE`: inserts the entry immediately after the current one
(WebViewWindow.cpp lines 705-711). -/
def EngineNav.createEntry (e : EngineNav) (ent : TravelLogEntry) : EngineNav :=
  { e with fwd := ent :: e.fwd }

/-- The in-memory HTML content handed to the engine (`HTMLMoniker`): the byte
buffer and the base URL. -/
structure Moniker where
  html : List Nat
  baseUrl : List Char
deriving DecidableEq, Repr

/-- `DEFAULT_BASE_URL = L"about:blank"` (WebViewWindow.cpp line 67). -/
def DEFAULT_BASE_URL : List Char := String.toList "about:blank"

/-- The navigation/content slice of `WebViewWindow` state. Constructor
initialisation (WebViewWindow.cpp lines 130-164): `originalContentLoaded =
FALSE`, `mustClearTravelLog = FALSE`, and `savedTravelLog` empty. -/
structure NavState where
  engine : EngineNav
  htmlContent : Moniker
  originalContentLoaded : Bool
  savedTravelLog : List TravelLogEntry
  mustClearTravelLog : Bool
deriving DecidableEq, Repr

/-- `WebViewWindow::ClearTravelLog` (WebViewWindow.cpp lines 724-770):
enumerates every entry (`TLEF_ABSOLUTE | TLEF_RELATIVE_INCLUDE_CURRENT |
TLEF_INCLUDE_UNINVOKEABLE`) and removes each one; when the log is already
empty it returns early with the same net effect. -/
def EngineNav.clearTravelLog (e : EngineNav) : EngineNav :=
  { e with back := [], fwd := [] }

/-- The engine's reply to `IPersistMoniker::Load` as a function of the
content's base URL (everything else about the load is fixed for one call
site).  `S_FALSE` is the non-fatal fall-through reply meaning the base URL was
not understood and nothing was loaded. -/
structure LoadEnv where
  load : List Char → HResult

/-- Logging calls made by the modelled code. -/
inductive LogLevel where
  | warning
  | severe
deriving DecidableEq, Repr

/-- `WebViewWindow::SetHTML` (WebViewWindow.cpp lines 518-572).  Returns the
new state, the sequence of log calls, and the sequence of base URLs with which
`IPersistMoniker::Load` was attempted (used to state "retries exactly once").

Mirrored control flow: load with the content's base URL; if the reply is
`S_FALSE`, set the default base URL on the moniker and load again, logging a
warning if the retry returns `S_OK` (the base URL was the problem) and a
severe error otherwise; if the first reply is any other failure, log a severe
error.  In every case `originalContentLoaded` is set.  A moniker load is not a
navigation, so the engine travel log is untouched here. -/
def WebViewWindow.SetHTML (env : LoadEnv) (s : NavState) :
    NavState × List LogLevel × List (List Char) :=
  let hr := env.load s.htmlContent.baseUrl
  if hr = .sFalse then
    let s2 := { s with htmlContent := { s.htmlContent with baseUrl := DEFAULT_BASE_URL } }
    let hr2 := env.load DEFAULT_BASE_URL
    let logs := if hr2 = .sOk then [LogLevel.warning] else [LogLevel.severe]
    ({ s2 with originalContentLoaded := true }, logs,
      [s.htmlContent.baseUrl, DEFAULT_BASE_URL])
  else
    ({ s with originalContentLoaded := true },
      if hr.failed then [LogLevel.severe] else [], [s.htmlContent.baseUrl])

/-- `WebViewWindow::OnSetHTML` (WebViewWindow.cpp lines 574-589): adopt the
new moniker, load it via `SetHTML`, then clear the engine's travel log
("Clear the back/forward history since a new browser session has been
initiated").  Note that this clears the *engine's* travel log; the saved
`savedTravelLog` list is not touched. -/
def WebViewWindow.OnSetHTML (env : LoadEnv) (m : Moniker) (s : NavState) :
    NavState × List LogLevel × List (List Char) :=
  let s1 := { s with htmlContent := m }
  let r := WebViewWindow.SetHTML env s1
  ({ r.1 with engine := r.1.engine.clearTravelLog }, r.2.1, r.2.2)

/-- Skip-consecutive-duplicates copy of the travel log as built by the loop in
`WebViewWindow::OnGoBack` (WebViewWindow.cpp lines 626-649): an entry is added
unless its URL equals the URL of the last entry added (`previousUrl`). -/
def dedupTravelLog : Option (List Char) → List TravelLogEntry → List TravelLogEntry
  | _, [] => []
  | prev, e :: rest =>
    if prev = some e.url then dedupTravelLog prev rest
    else e :: dedupTravelLog (some e.url) rest

/-- `WebViewWindow::OnGoBack` (WebViewWindow.cpp lines 595-684).

* If the original content is loaded, neither guard fires (`hr` stays `E_FAIL`
  but `!originalContentLoaded` is false): no state change.
* Otherwise ask the engine to go back; on success nothing else happens.
* If the engine has no earlier entry, save a consecutive-duplicate-free copy
  of its travel log into `savedTravelLog` (falling back to the current page's
  URL/title when the log is empty), set `mustClearTravelLog`, and reload the
  original content via `SetHTML`. -/
def WebViewWindow.OnGoBack (env : LoadEnv) (s : NavState) : NavState :=
  if s.originalContentLoaded then s
  else
    match s.engine.goBack with
    | some e2 => { s with engine := e2 }
    | none =>
      let entries := s.engine.travelLogEntries
      let saved := dedupTravelLog none entries
      let saved := if saved.isEmpty then [⟨s.engine.current.url, s.engine.current.title⟩]
        else saved
      let s2 := { s with savedTravelLog := saved, mustClearTravelLog := true }
      (WebViewWindow.SetHTML env s2).1

/-- `WebViewWindow::OnGoForward` (WebViewWindow.cpp lines 686-722).

If the original content is loaded: clear the engine's travel log, re-insert
the saved entries iterating the saved list in reverse order (so each
`CreateEntry` insertion after the current entry leaves the list in the
original order), and clear `mustClearTravelLog`.  Then (in every case) ask the
engine to navigate forward. -/
def WebViewWindow.OnGoForward (s : NavState) : NavState :=
  let s1 :=
    if s.originalContentLoaded then
      let e1 := s.engine.clearTravelLog
      let e2 := s.savedTravelLog.reverse.foldl EngineNav.createEntry e1
      { s with engine := e2, mustClearTravelLog := false }
    else s
  { s1 with engine := s1.engine.goForward }

/-! ## Claims C3 and C6 -/

/-- C3: on an instance that currently has the original in-memory content
loaded and has never navigated away from it -- so `originalContentLoaded`
holds, the engine travel log is empty (it is cleared when the content is
loaded) and no navigation entries have been saved -- `goBack` followed by
`goForward` changes neither the engine's travel-list state nor the saved
navigation-entry list: `goBack` takes neither of its branches, and
`goForward` clears an already-empty travel log, re-inserts nothing and asks
the engine to move forward with no forward entry. -/
theorem c3_goBack_goForward_noop (env : LoadEnv) (s : NavState)
    (horig : s.originalContentLoaded = true)
    (hback : s.engine.back = []) (hfwd : s.engine.fwd = [])
    (hsaved : s.savedTravelLog = []) :
    (WebViewWindow.OnGoForward (WebViewWindow.OnGoBack env s)).engine = s.engine
    ∧ (WebViewWindow.OnGoForward (WebViewWindow.OnGoBack env s)).savedTravelLog
      = s.savedTravelLog := by
  obtain ⟨⟨b, c, f⟩, m, o, saved, mc⟩ := s
  simp only at horig hback hfwd hsaved
  subst horig hback hfwd hsaved
  constructor <;> rfl

/-- Witness for C3 at a concrete never-navigated instance. -/
theorem c3_goBack_goForward_noop_witness :
    (WebViewWindow.OnGoForward (WebViewWindow.OnGoBack ⟨fun _ => .sOk⟩
        ⟨⟨[], ⟨String.toList "u", String.toList "t"⟩, []⟩,
          ⟨[], DEFAULT_BASE_URL⟩, true, [], false⟩)).engine
      = (⟨[], ⟨String.toList "u", String.toList "t"⟩, []⟩ : EngineNav)
    ∧ (WebViewWindow.OnGoForward (WebViewWindow.OnGoBack ⟨fun _ => .sOk⟩
        ⟨⟨[], ⟨String.toList "u", String.toList "t"⟩, []⟩,
          ⟨[], DEFAULT_BASE_URL⟩, true, [], false⟩)).savedTravelLog
      = [] :=
  c3_goBack_goForward_noop ⟨fun _ => .sOk⟩
    ⟨⟨[], ⟨String.toList "u", String.toList "t"⟩, []⟩,
      ⟨[], DEFAULT_BASE_URL⟩, true, [], false⟩ rfl rfl rfl rfl

/-- C6 counterexample.  The claim states that in a `setHtml` load whose base
URL the engine rejects with the non-fatal fall-through (`S_FALSE`), a warning
is logged and afterwards the saved navigation history is cleared.  Concrete
input: an engine that replies `S_FALSE` to every base URL and an instance
whose saved navigation-entry list holds one entry.  After `OnSetHTML`: the
saved list still holds that entry (it is the *engine's* travel log that is
cleared, `savedTravelLog` is never touched by `OnSetHTML`), and the log
record is a severe error, not a warning (the warning is only emitted when the
retry returns `S_OK`). -/
theorem c6_setHtml_reject_counterexample :
    (WebViewWindow.OnSetHTML ⟨fun _ => .sFalse⟩ ⟨[], String.toList "x:"⟩
        ⟨⟨[], ⟨String.toList "u", String.toList "t"⟩, []⟩, ⟨[], DEFAULT_BASE_URL⟩,
          true, [⟨String.toList "u", String.toList "t"⟩], false⟩).1.savedTravelLog
      = [⟨String.toList "u", String.toList "t"⟩]
    ∧ (WebViewWindow.OnSetHTML ⟨fun _ => .sFalse⟩ ⟨[], String.toList "x:"⟩
        ⟨⟨[], ⟨String.toList "u", String.toList "t"⟩, []⟩, ⟨[], DEFAULT_BASE_URL⟩,
          true, [⟨String.toList "u", String.toList "t"⟩], false⟩).1.savedTravelLog ≠ []
    ∧ (WebViewWindow.OnSetHTML ⟨fun _ => .sFalse⟩ ⟨[], String.toList "x:"⟩
        ⟨⟨[], ⟨String.toList "u", String.toList "t"⟩, []⟩, ⟨[], DEFAULT_BASE_URL⟩,
          true, [⟨String.toList "u", String.toList "t"⟩], false⟩).2.1
      = [LogLevel.severe] := by
  refine ⟨rfl, ?_, rfl⟩
  decide

/-- C6 as amended: when the engine rejects the supplied base URL with the
non-fatal fall-through (`S_FALSE`), `setHtml` retries the load exactly once,
with the default blank base URL, and logs a warning exactly when the retry
returns `S_OK` (otherwise it logs a severe error); after the operation the
original-content-loaded flag is set and the *engine's* travel log is cleared,
while the saved navigation-entry list is left unchanged. -/
theorem c6_setHtml_reject_retries_once (env : LoadEnv) (m : Moniker) (s : NavState)
    (hrej : env.load m.baseUrl = .sFalse) :
    (WebViewWindow.OnSetHTML env m s).2.2 = [m.baseUrl, DEFAULT_BASE_URL]
    ∧ ((WebViewWindow.OnSetHTML env m s).2.1 = [LogLevel.warning]
        ↔ env.load DEFAULT_BASE_URL = .sOk)
    ∧ (WebViewWindow.OnSetHTML env m s).1.originalContentLoaded = true
    ∧ (WebViewWindow.OnSetHTML env m s).1.engine.back = []
    ∧ (WebViewWindow.OnSetHTML env m s).1.engine.fwd = []
    ∧ (WebViewWindow.OnSetHTML env m s).1.htmlContent.baseUrl = DEFAULT_BASE_URL
    ∧ (WebViewWindow.OnSetHTML env m s).1.savedTravelLog = s.savedTravelLog := by
  cases h2 : env.load DEFAULT_BASE_URL <;>
    simp [WebViewWindow.OnSetHTML, WebViewWindow.SetHTML, hrej, h2,
      EngineNav.clearTravelLog]

/-- Witness for C6 (amended) at a concrete rejecting engine whose retry with
the default base URL succeeds. -/
theorem c6_setHtml_reject_retries_once_witness :
    (WebViewWindow.OnSetHTML ⟨fun b => if b = String.toList "x:" then .sFalse else .sOk⟩
        ⟨[], String.toList "x:"⟩
        ⟨⟨[], ⟨String.toList "u", String.toList "t"⟩, []⟩, ⟨[], DEFAULT_BASE_URL⟩,
          false, [], false⟩).2.2 = [String.toList "x:", DEFAULT_BASE_URL]
    ∧ ((WebViewWindow.OnSetHTML ⟨fun b => if b = String.toList "x:" then .sFalse else .sOk⟩
        ⟨[], String.toList "x:"⟩
        ⟨⟨[], ⟨String.toList "u", String.toList "t"⟩, []⟩, ⟨[], DEFAULT_BASE_URL⟩,
          false, [], false⟩).2.1 = [LogLevel.warning]
        ↔ (fun b => if b = String.toList "x:" then HResult.sFalse else .sOk) DEFAULT_BASE_URL
          = .sOk)
    ∧ (WebViewWindow.OnSetHTML ⟨fun b => if b = String.toList "x:" then .sFalse else .sOk⟩
        ⟨[], String.toList "x:"⟩
        ⟨⟨[], ⟨String.toList "u", String.toList "t"⟩, []⟩, ⟨[], DEFAULT_BASE_URL⟩,
          false, [], false⟩).1.originalContentLoaded = true
    ∧ (WebViewWindow.OnSetHTML ⟨fun b => if b = String.toList "x:" then .sFalse else .sOk⟩
        ⟨[], String.toList "x:"⟩
        ⟨⟨[], ⟨String.toList "u", String.toList "t"⟩, []⟩, ⟨[], DEFAULT_BASE_URL⟩,
          false, [], false⟩).1.engine.back = []
    ∧ (WebViewWindow.OnSetHTML ⟨fun b => if b = String.toList "x:" then .sFalse else .sOk⟩
        ⟨[], String.toList "x:"⟩
        ⟨⟨[], ⟨String.toList "u", String.toList "t"⟩, []⟩, ⟨[], DEFAULT_BASE_URL⟩,
          false, [], false⟩).1.engine.fwd = []
    ∧ (WebViewWindow.OnSetHTML ⟨fun b => if b = String.toList "x:" then .sFalse else .sOk⟩
        ⟨[], String.toList "x:"⟩
        ⟨⟨[], ⟨String.toList "u", String.toList "t"⟩, []⟩, ⟨[], DEFAULT_BASE_URL⟩,
          false, [], false⟩).1.htmlContent.baseUrl = DEFAULT_BASE_URL
    ∧ (WebViewWindow.OnSetHTML ⟨fun b => if b = String.toList "x:" then .sFalse else .sOk⟩
        ⟨[], String.toList "x:"⟩
        ⟨⟨[], ⟨String.toList "u", String.toList "t"⟩, []⟩, ⟨[], DEFAULT_BASE_URL⟩,
          false, [], false⟩).1.savedTravelLog = [] :=
  c6_setHtml_reject_retries_once
    ⟨fun b => if b = String.toList "x:" then .sFalse else .sOk⟩
    ⟨[], String.toList "x:"⟩
    ⟨⟨[], ⟨String.toList "u", String.toList "t"⟩, []⟩, ⟨[], DEFAULT_BASE_URL⟩,
      false, [], false⟩ (by decide)

/-! ## Content size determination (WebViewWindow.cpp)

`DetermineContentSize` temporarily resizes the native window to the minimum
content size (the window is a borderless `WS_POPUP` window, WebViewWindow.cpp
line 221, so its client area equals the window rectangle), reads the
engine-reported scroll dimensions -- from the document element in standards
mode, from the body element in `BackCompat` mode -- restores the window, and
adds one scrollbar thickness to each reported dimension. -/

/-- The engine-and-system oracle for content sizing: the compatibility mode of
the loaded document, the scroll dimensions the engine reports for the root
(documentElement) and for the body as a function of the window size the
measurement runs at, and the `GetSystemMetrics` scrollbar sizes
(`SM_CXVSCROLL` and `SM_CXHSCROLL`). -/
structure SizeEnv where
  compatMode : List Char
  rootScrollSize : Int × Int → Int × Int
  bodyScrollSize : Int × Int → Int × Int
  cxVScroll : Int
  cxHScroll : Int

/-- The sizing slice of `WebViewWindow` state.  Constructor defaults
(WebViewWindow.cpp lines 156-162): content size `0 × 0`, minimum content size
`DEFAULT_MIN_CONTENT_WIDTH × DEFAULT_MIN_CONTENT_HEIGHT = 300 × 100`. -/
structure SizeState where
  contentWidth : Int
  contentHeight : Int
  minContentWidth : Int
  minContentHeight : Int
  contentLoadID : Nat
  contentMetadataUpdateID : Nat
deriving DecidableEq, Repr

/-- `DEFAULT_MIN_CONTENT_WIDTH` (WebViewWindow.h line 30). -/
def DEFAULT_MIN_CONTENT_WIDTH : Int := 300
/-- `DEFAULT_MIN_CONTENT_HEIGHT` (WebViewWindow.h line 32). -/
def DEFAULT_MIN_CONTENT_HEIGHT : Int := 100

/-- `WebViewWindow::DetermineContentSize` (WebViewWindow.cpp lines 2014-2068):
resize the window to `minContentWidth × minContentHeight` (restored on exit by
the `RestorableWindow` wrapper), read the scroll size for the document's
compatibility mode (`DetermineContentSizeCompatibilityMode` reads the body,
`DetermineContentSizeStandardsMode` reads the document element), then add the
vertical scrollbar width `SM_CXVSCROLL` to the width and the horizontal
scrollbar arrow width `SM_CXHSCROLL` to the height. -/
def WebViewWindow.DetermineContentSize (env : SizeEnv) (s : SizeState) : SizeState :=
  let measureAt := (s.minContentWidth, s.minContentHeight)
  let dims :=
    if env.compatMode = String.toList "BackCompat" then env.bodyScrollSize measureAt
    else env.rootScrollSize measureAt
  { s with contentWidth := dims.1 + env.cxVScroll,
           contentHeight := dims.2 + env.cxHScroll }

/-- `WebViewWindow::OnSetMinContentSize` (WebViewWindow.cpp lines 2222-2237):
store the requested minimum (substituting the defaults for non-positive
values) and bump `contentLoadID` so that the next capture redetermines the
content size. -/
def WebViewWindow.OnSetMinContentSize (width height : Int) (s : SizeState) : SizeState :=
  { s with minContentWidth := if width > 0 then width else DEFAULT_MIN_CONTENT_WIDTH,
           minContentHeight := if height > 0 then height else DEFAULT_MIN_CONTENT_HEIGHT,
           contentLoadID := s.contentLoadID + 1 }

/-- `WebViewWindow::GetContentSize` (WebViewWindow.cpp lines 2200-2209). -/
def WebViewWindow.GetContentSize (s : SizeState) : Int × Int :=
  (s.contentWidth, s.contentHeight)

/-! ## Claim C4 -/

/-- C4: for positive `w` and `h`, once `setMinContentSize(w, h)` has taken
effect and the content size has been redetermined, `getContentSize` reports at
least `w × h`, and each reported dimension is the engine's measured scroll
dimension plus one scrollbar thickness.  The measurement runs with the
(borderless) window resized to `w × h`, so the engine hypotheses say the
scroll dimensions it reports are at least the window's client dimensions --
the documented floor for `scrollWidth` / `scrollHeight` -- and the scrollbar
metrics are non-negative. -/
theorem c4_minContentSize_lower_bound (env : SizeEnv) (s : SizeState) (w h : Int)
    (hw : 0 < w) (hh : 0 < h)
    (hroot : ∀ d : Int × Int, d.1 ≤ (env.rootScrollSize d).1 ∧ d.2 ≤ (env.rootScrollSize d).2)
    (hbody : ∀ d : Int × Int, d.1 ≤ (env.bodyScrollSize d).1 ∧ d.2 ≤ (env.bodyScrollSize d).2)
    (hv : 0 ≤ env.cxVScroll) (hhs : 0 ≤ env.cxHScroll) :
    let s2 := WebViewWindow.DetermineContentSize env (WebViewWindow.OnSetMinContentSize w h s)
    let measured :=
      if env.compatMode = String.toList "BackCompat" then env.bodyScrollSize (w, h)
      else env.rootScrollSize (w, h)
    w ≤ (WebViewWindow.GetContentSize s2).1
    ∧ h ≤ (WebViewWindow.GetContentSize s2).2
    ∧ (WebViewWindow.GetContentSize s2).1 = measured.1 + env.cxVScroll
    ∧ (WebViewWindow.GetContentSize s2).2 = measured.2 + env.cxHScroll := by
  have hw' : (if w > 0 then w else DEFAULT_MIN_CONTENT_WIDTH) = w := if_pos hw
  have hh' : (if h > 0 then h else DEFAULT_MIN_CONTENT_HEIGHT) = h := if_pos hh
  simp only [WebViewWindow.DetermineContentSize, WebViewWindow.OnSetMinContentSize,
    WebViewWindow.GetContentSize, hw', hh']
  by_cases hc : env.compatMode = String.toList "BackCompat" <;> simp only [hc, if_pos, if_neg,
    if_true, if_false, reduceIte]
  · exact ⟨by have := (hbody (w, h)).1; omega, by have := (hbody (w, h)).2; omega,
      by trivial, by trivial⟩
  · exact ⟨by have := (hroot (w, h)).1; omega, by have := (hroot (w, h)).2; omega,
      by trivial, by trivial⟩

/-- Witness for C4 at a concrete engine: document in standards mode whose
content is wider than the 400 × 200 minimum in one direction only, scrollbar
metrics 17 pixels. -/
theorem c4_minContentSize_lower_bound_witness :
    (0 : Int) < 400 ∧ (0 : Int) < 200
    ∧ (let s2 := WebViewWindow.DetermineContentSize
          ⟨String.toList "CSS1Compat", fun d => (max d.1 550, max d.2 90), fun d => d, 17, 17⟩
          (WebViewWindow.OnSetMinContentSize 400 200 ⟨0, 0, 300, 100, 0, 0⟩)
      let measured :=
        if (String.toList "CSS1Compat") = String.toList "BackCompat" then
          (fun d : Int × Int => d) ((400 : Int), (200 : Int))
        else (fun d : Int × Int => (max d.1 550, max d.2 90)) ((400 : Int), (200 : Int))
      (400 : Int) ≤ (WebViewWindow.GetContentSize s2).1
      ∧ (200 : Int) ≤ (WebViewWindow.GetContentSize s2).2
      ∧ (WebViewWindow.GetContentSize s2).1 = measured.1 + 17
      ∧ (WebViewWindow.GetContentSize s2).2 = measured.2 + 17) :=
  ⟨by norm_num, by norm_num,
    c4_minContentSize_lower_bound
      ⟨String.toList "CSS1Compat", fun d => (max d.1 550, max d.2 90), fun d => d, 17, 17⟩
      ⟨0, 0, 300, 100, 0, 0⟩ 400 200 (by norm_num) (by norm_num)
      (fun d => ⟨le_max_left _ _, le_max_left _ _⟩) (fun d => ⟨le_refl _, le_refl _⟩)
      (by norm_num) (by norm_num)⟩

/-! ## Controller message pump (WebViewControl.cpp, WebViewWindow.h)

Message identifiers as declared in WebViewWindow.h (`WM_APP = 0x8000`).  The
thread's posted-message queue is modelled as a FIFO list of message codes;
`PeekMessage(msg, NULL, lo, hi, PM_REMOVE)` removes the first queued message
whose code lies in `[lo, hi]`. -/

/-- `WM_APP` (0x8000). -/
def WM_APP : Nat := 32768
/-- WebViewWindow.h line 40. -/
def WM_SET_HTML : Nat := WM_APP + 0
/-- WebViewWindow.h line 43. -/
def WM_GO_BACK : Nat := WM_APP + 2
/-- WebViewWindow.h line 46. -/
def WM_GO_FORWARD : Nat := WM_APP + 3
/-- WebViewWindow.h line 49. -/
def WM_WEBVIEW_CREATE : Nat := WM_APP + 4
/-- WebViewWindow.h line 56. -/
def WM_WEBVIEW_DESTROY : Nat := WM_APP + 5
/-- WebViewWindow.h line 59. -/
def WM_WEBVIEW_UPDATE : Nat := WM_APP + 6
/-- WebViewWindow.h line 69. -/
def WM_SIM_MOUSEWHEEL : Nat := WM_APP + 8
/-- WebViewWindow.h line 76. -/
def WM_WEBVIEW_ACTIVATE : Nat := WM_APP + 9
/-- WebViewWindow.h line 83. -/
def WM_WEBVIEW_SET_BACKGROUND_COLOR : Nat := WM_APP + 10
/-- WebViewWindow.h line 90. -/
def WM_WEBVIEW_SET_RESOURCE_RESOLVER : Nat := WM_APP + 11
/-- WebViewWindow.h line 97. -/
def WM_WEBVIEW_SET_ADVISE : Nat := WM_APP + 12
/-- WebViewWindow.h line 108: marker for the last high-priority WebView
message, defined as `WM_WEBVIEW_SET_ADVISE` (= `WM_APP + 12`). -/
def WM_WEBVIEW_HIPRIORITY_LAST : Nat := WM_WEBVIEW_SET_ADVISE
/-- WebViewWindow.h line 105.  Note: `WM_APP + 13`, numerically *above* the
high-priority marker. -/
def WM_WEBVIEW_SET_MIN_CONTENT_SIZE : Nat := WM_APP + 13
/-- WebViewWindow.h line 111. -/
def WM_WEBVIEW_CAPTURE : Nat := WM_APP + 14
/-- `WM_KEYDOWN` (0x0100, Winuser.h), an example input-delivery message. -/
def WM_KEYDOWN : Nat := 256
/-- `WM_KEYUP` (0x0101, Winuser.h). -/
def WM_KEYUP : Nat := 257

/-- `PeekMessage(msg, NULL, lo, hi, PM_REMOVE)`: remove and return the first
queued message whose code lies in `[lo, hi]`, if any. -/
def peekMessageRange (lo hi : Nat) : List Nat → Option (Nat × List Nat)
  | [] => none
  | m :: rest =>
    if lo ≤ m ∧ m ≤ hi then some (m, rest)
    else
      match peekMessageRange lo hi rest with
      | none => none
      | some (m2, q2) => some (m2, m :: q2)

/-- The pump's `GetMessage` (WebViewControl.cpp lines 166-182): first peek for
a message in `[0, WM_WEBVIEW_HIPRIORITY_LAST]`, then for a
`WM_WEBVIEW_CAPTURE` message, and only when both peeks come back empty fall
through to the blocking `GetMessage(msg, NULL, 0, 0)`, which waits when (and
only when) the queue is empty and otherwise returns the first queued message
of any code.  `none` models entering the blocking wait on an empty queue. -/
def GetMessage (q : List Nat) : Option (Nat × List Nat) :=
  match peekMessageRange 0 WM_WEBVIEW_HIPRIORITY_LAST q with
  | some r => some r
  | none =>
    match peekMessageRange WM_WEBVIEW_CAPTURE WM_WEBVIEW_CAPTURE q with
    | some r => some r
    | none =>
      match q with
      | [] => none
      | m :: rest => some (m, rest)

/-- The high-priority message classes as the claim lists them: creation,
destruction, input delivery, navigation, content change, size change,
listener bind.  This definition follows the claim's words (it is the claim's
predicate, to be compared with what the pump actually prioritises); "size
change" covers the minimum-content-size message, the only sizing message
delivered through the posted-message queue (`setFrameSize` calls `MoveWindow`
directly, WindowsWebViewJNI.cpp lines 437-466). -/
def claimHighPriorityMsg (m : Nat) : Bool :=
  m = WM_WEBVIEW_CREATE ∨ m = WM_WEBVIEW_DESTROY
    ∨ m = WM_KEYDOWN ∨ m = WM_KEYUP ∨ m = WM_SIM_MOUSEWHEEL
    ∨ m = WM_GO_BACK ∨ m = WM_GO_FORWARD
    ∨ m = WM_SET_HTML
    ∨ m = WM_WEBVIEW_SET_MIN_CONTENT_SIZE
    ∨ m = WM_WEBVIEW_SET_ADVISE

/-! ## Claim C5 -/

/-- C5 counterexample.  With the queue holding a pending minimum-content-size
message (a size-change message, high priority according to the claim) followed
by a capture message, the pump dequeues the *capture* first: the size-change
message's code `WM_APP + 13` lies above the `WM_WEBVIEW_HIPRIORITY_LAST`
marker (`WM_APP + 12`), so the first peek misses it and the second peek takes
the capture. -/
theorem c5_capture_before_pending_size_change :
    GetMessage [WM_WEBVIEW_SET_MIN_CONTENT_SIZE, WM_WEBVIEW_CAPTURE]
      = some (WM_WEBVIEW_CAPTURE, [WM_WEBVIEW_SET_MIN_CONTENT_SIZE])
    ∧ claimHighPriorityMsg WM_WEBVIEW_SET_MIN_CONTENT_SIZE = true := by
  decide

/-- `peekMessageRange` only returns messages inside the requested range. -/
theorem peekMessageRange_mem_range (lo hi : Nat) :
    ∀ (q q2 : List Nat) (m : Nat),
      peekMessageRange lo hi q = some (m, q2) → lo ≤ m ∧ m ≤ hi := by
  intro q
  induction q with
  | nil => intro q2 m h; simp [peekMessageRange] at h
  | cons a rest ih =>
    intro q2 m h
    by_cases ha : lo ≤ a ∧ a ≤ hi
    · simp only [peekMessageRange, if_pos ha] at h
      obtain ⟨rfl, rfl⟩ := Prod.mk.injEq .. ▸ Option.some.injEq .. ▸ h
      exact ha
    · simp only [peekMessageRange, if_neg ha] at h
      rcases hrest : peekMessageRange lo hi rest with _ | ⟨m2, q3⟩
      · rw [hrest] at h; exact absurd h (by simp)
      · rw [hrest] at h
        simp only [Option.some.injEq, Prod.mk.injEq] at h
        exact h.1 ▸ ih q3 m2 hrest

/-- When `peekMessageRange` finds nothing, no queued message is in range. -/
theorem peekMessageRange_none_forall (lo hi : Nat) :
    ∀ q : List Nat, peekMessageRange lo hi q = none →
      ∀ m ∈ q, ¬(lo ≤ m ∧ m ≤ hi) := by
  intro q
  induction q with
  | nil => intro _ m hm; simp at hm
  | cons a rest ih =>
    intro h m hm
    by_cases ha : lo ≤ a ∧ a ≤ hi
    · simp [peekMessageRange, if_pos ha] at h
    · simp only [peekMessageRange, if_neg ha] at h
      rcases List.mem_cons.mp hm with rfl | hm
      · exact ha
      · rcases hrest : peekMessageRange lo hi rest with _ | ⟨m2, q3⟩
        · exact ih hrest m hm
        · rw [hrest] at h; exact absurd h (by simp)

/-- C5 as amended: the pump's actual high-priority class is the set of message
codes at most `WM_WEBVIEW_HIPRIORITY_LAST` (`WM_APP + 12`) -- this covers
creation, destruction, input delivery, navigation, content change, colour,
resolver and listener bind, but *not* the minimum-content-size message
(`WM_APP + 13`), which ranks below even the capture message.  A capture is
never dequeued while a message in that class is pending (second conjunct), and
the pump enters its blocking wait exactly when the queue is empty, so it
blocks only when neither a high-priority nor a capture message is pending
(first conjunct). -/
theorem c5_pump_priority_discipline :
    (∀ q : List Nat, GetMessage q = none ↔ q = [])
    ∧ (∀ (q q2 : List Nat), GetMessage q = some (WM_WEBVIEW_CAPTURE, q2) →
        ∀ m ∈ q, WM_WEBVIEW_HIPRIORITY_LAST < m) := by
  constructor
  · intro q
    constructor
    · intro h
      simp only [GetMessage.eq_def] at h
      rcases h1 : peekMessageRange 0 WM_WEBVIEW_HIPRIORITY_LAST q with _ | r1 <;>
        rw [h1] at h
      · rcases h2 : peekMessageRange WM_WEBVIEW_CAPTURE WM_WEBVIEW_CAPTURE q with _ | r2 <;>
          rw [h2] at h
        · cases q with
          | nil => rfl
          | cons a rest => exact absurd h (by simp)
        · exact absurd h (by simp)
      · exact absurd h (by simp)
    · intro h; subst h; rfl
  · intro q q2 h m hm
    rcases h1 : peekMessageRange 0 WM_WEBVIEW_HIPRIORITY_LAST q with _ | ⟨m1, q1⟩
    · have := peekMessageRange_none_forall 0 WM_WEBVIEW_HIPRIORITY_LAST q h1 m hm
      omega
    · have hget : GetMessage q = some (m1, q1) := by
        simp [GetMessage.eq_def, h1]
      rw [hget] at h
      have hrange := peekMessageRange_mem_range 0 WM_WEBVIEW_HIPRIORITY_LAST q q1 m1 h1
      simp only [Option.some.injEq, Prod.mk.injEq] at h
      have hcap : m1 = WM_WEBVIEW_CAPTURE := h.1
      subst hcap
      exact absurd hrange.2 (by decide)

/-- Witness for C5 (amended), at the concrete queue of the counterexample: the
capture is dequeued and indeed every pending message sits above the
high-priority marker; and the pump does not block on that queue but blocks on
the empty queue. -/
theorem c5_pump_priority_discipline_witness :
    (GetMessage [] = none ↔ ([] : List Nat) = [])
    ∧ (GetMessage [WM_WEBVIEW_SET_MIN_CONTENT_SIZE, WM_WEBVIEW_CAPTURE]
        = some (WM_WEBVIEW_CAPTURE, [WM_WEBVIEW_SET_MIN_CONTENT_SIZE])
      ∧ ∀ m ∈ [WM_WEBVIEW_SET_MIN_CONTENT_SIZE, WM_WEBVIEW_CAPTURE],
          WM_WEBVIEW_HIPRIORITY_LAST < m) :=
  ⟨c5_pump_priority_discipline.1 [],
    by decide,
    c5_pump_priority_discipline.2 [WM_WEBVIEW_SET_MIN_CONTENT_SIZE, WM_WEBVIEW_CAPTURE]
      [WM_WEBVIEW_SET_MIN_CONTENT_SIZE] (by decide)⟩

/-! ## Host key-event translation (AWTEventSupport.cpp)

`WindowsKeyCodeFromAWTKeyCode` (AWTEventSupport.cpp lines 523-795) maps AWT
virtual key codes to Windows virtual key codes through one long if/else
chain.  The AWT codes covered by that chain are modelled by the inductive
`AWTKeyCode` (one constructor per branch, in source order; `vkDigitN` stands
for the AWT constant `VK_N`); the Windows codes on the right-hand sides are
the Winuser.h values the branch assigns (letters and digits use their ASCII
codes, as the source comment notes).  `VK_SEPARATOR` is the single target of
the double branch for AWT `VK_SEPARATER` / `VK_SEPARATOR`. -/

/-- AWT key codes covered by the translation table, in source branch order. -/
inductive AWTKeyCode where
  | vkA
  | vkB
  | vkC
  | vkD
  | vkE
  | vkF
  | vkG
  | vkH
  | vkI
  | vkJ
  | vkK
  | vkL
  | vkM
  | vkN
  | vkO
  | vkP
  | vkQ
  | vkR
  | vkS
  | vkT
  | vkU
  | vkV
  | vkW
  | vkX
  | vkY
  | vkZ
  | vkDigit0
  | vkDigit1
  | vkDigit2
  | vkDigit3
  | vkDigit4
  | vkDigit5
  | vkDigit6
  | vkDigit7
  | vkDigit8
  | vkDigit9
  | vkShift
  | vkControl
  | vkAlt
  | vkEscape
  | vkTab
  | vkCapsLock
  | vkMinus
  | vkBackSpace
  | vkNumLock
  | vkScrollLock
  | vkEnter
  | vkWindows
  | vkContextMenu
  | vkOpenBracket
  | vkCloseBracket
  | vkBackSlash
  | vkSemicolon
  | vkQuote
  | vkComma
  | vkPeriod
  | vkSlash
  | vkSpace
  | vkBackQuote
  | vkEquals
  | vkUp
  | vkDown
  | vkLeft
  | vkRight
  | vkHome
  | vkPageUp
  | vkDelete
  | vkEnd
  | vkPageDown
  | vkHelp
  | vkPrintScreen
  | vkInsert
  | vkPause
  | vkClear
  | vkDivide
  | vkMultiply
  | vkSubtract
  | vkAdd
  | vkDecimal
  | vkNumpad0
  | vkNumpad1
  | vkNumpad2
  | vkNumpad3
  | vkNumpad4
  | vkNumpad5
  | vkNumpad6
  | vkNumpad7
  | vkNumpad8
  | vkNumpad9
  | vkSeparater
  | vkSeparator
  | vkF1
  | vkF2
  | vkF3
  | vkF4
  | vkF5
  | vkF6
  | vkF7
  | vkF8
  | vkF9
  | vkF10
  | vkF11
  | vkF12
  | vkF13
  | vkF14
  | vkF15
  | vkF16
  | vkF17
  | vkF18
  | vkF19
  | vkF20
  | vkF21
  | vkF22
  | vkF23
  | vkF24
deriving DecidableEq, Repr

/-- `java.awt.event.KeyEvent` key locations. -/
inductive KeyLocation where
  | unknown
  | standard
  | left
  | right
  | numpad
deriving DecidableEq, Repr

/-- The key-code part of `WindowsKeyCodeFromAWTKeyCode`: the Windows virtual
key code written into `winKeyCode` for each covered AWT key code.  Only the
`VK_WINDOWS` branch consults the key location (`VK_RWIN` = 92 for the
right-hand location, `VK_LWIN` = 91 otherwise). -/
def WindowsKeyCodeFromAWTKeyCode (k : AWTKeyCode) (location : KeyLocation) : Nat :=
  match k with
  | .vkA => 65
  | .vkB => 66
  | .vkC => 67
  | .vkD => 68
  | .vkE => 69
  | .vkF => 70
  | .vkG => 71
  | .vkH => 72
  | .vkI => 73
  | .vkJ => 74
  | .vkK => 75
  | .vkL => 76
  | .vkM => 77
  | .vkN => 78
  | .vkO => 79
  | .vkP => 80
  | .vkQ => 81
  | .vkR => 82
  | .vkS => 83
  | .vkT => 84
  | .vkU => 85
  | .vkV => 86
  | .vkW => 87
  | .vkX => 88
  | .vkY => 89
  | .vkZ => 90
  | .vkDigit0 => 48
  | .vkDigit1 => 49
  | .vkDigit2 => 50
  | .vkDigit3 => 51
  | .vkDigit4 => 52
  | .vkDigit5 => 53
  | .vkDigit6 => 54
  | .vkDigit7 => 55
  | .vkDigit8 => 56
  | .vkDigit9 => 57
  | .vkShift => 16
  | .vkControl => 17
  | .vkAlt => 18
  | .vkEscape => 27
  | .vkTab => 9
  | .vkCapsLock => 20
  | .vkMinus => 189
  | .vkBackSpace => 8
  | .vkNumLock => 144
  | .vkScrollLock => 145
  | .vkEnter => 13
  | .vkWindows => if location = .right then 92 else 91
  | .vkContextMenu => 93
  | .vkOpenBracket => 219
  | .vkCloseBracket => 221
  | .vkBackSlash => 220
  | .vkSemicolon => 186
  | .vkQuote => 222
  | .vkComma => 188
  | .vkPeriod => 190
  | .vkSlash => 191
  | .vkSpace => 32
  | .vkBackQuote => 192
  | .vkEquals => 187
  | .vkUp => 38
  | .vkDown => 40
  | .vkLeft => 37
  | .vkRight => 39
  | .vkHome => 36
  | .vkPageUp => 33
  | .vkDelete => 46
  | .vkEnd => 35
  | .vkPageDown => 34
  | .vkHelp => 47
  | .vkPrintScreen => 44
  | .vkInsert => 45
  | .vkPause => 19
  | .vkClear => 12
  | .vkDivide => 111
  | .vkMultiply => 106
  | .vkSubtract => 109
  | .vkAdd => 107
  | .vkDecimal => 110
  | .vkNumpad0 => 96
  | .vkNumpad1 => 97
  | .vkNumpad2 => 98
  | .vkNumpad3 => 99
  | .vkNumpad4 => 100
  | .vkNumpad5 => 101
  | .vkNumpad6 => 102
  | .vkNumpad7 => 103
  | .vkNumpad8 => 104
  | .vkNumpad9 => 105
  | .vkSeparater => 108
  | .vkSeparator => 108
  | .vkF1 => 112
  | .vkF2 => 113
  | .vkF3 => 114
  | .vkF4 => 115
  | .vkF5 => 116
  | .vkF6 => 117
  | .vkF7 => 118
  | .vkF8 => 119
  | .vkF9 => 120
  | .vkF10 => 121
  | .vkF11 => 122
  | .vkF12 => 123
  | .vkF13 => 124
  | .vkF14 => 125
  | .vkF15 => 126
  | .vkF16 => 127
  | .vkF17 => 128
  | .vkF18 => 129
  | .vkF19 => 130
  | .vkF20 => 131
  | .vkF21 => 132
  | .vkF22 => 133
  | .vkF23 => 134
  | .vkF24 => 135

/-- `EXTENDED_KEY = 1 << 24` (AWTEventSupport.cpp line 18). -/
def EXTENDED_KEY : Nat := 2 ^ 24
/-- `PREVIOUS_KEY_STATE_BIT = 1 << 30` (AWTEventSupport.cpp line 19). -/
def PREVIOUS_KEY_STATE_BIT : Nat := 2 ^ 30
/-- `TRANSITION_STATE_BIT = 1 << 31` (AWTEventSupport.cpp line 20). -/
def TRANSITION_STATE_BIT : Nat := 2 ^ 31

/-- The `getID` of an AWT key event. -/
inductive KeyEventID where
  | pressed
  | released
  | typed
deriving DecidableEq, Repr

/-- A message posted to the browser window: identifier, `WPARAM`, `LPARAM`. -/
structure PostedKeyMsg where
  message : Nat
  wParam : Nat
  lParam : Nat
deriving DecidableEq, Repr

/-- `PostKeyMsgFromAWTKeyEvent` (AWTEventSupport.cpp lines 804-848).  `lParam`
starts at 1 ("the repeat count as 1, and all other bits 0");
`WindowsKeyCodeFromAWTKeyCode` sets the extended-key bit when the host reports
the right-hand key location and fills `wParam` with the mapped code; a press
becomes `WM_KEYDOWN`, a release becomes `WM_KEYUP` with the previous-key-state
and transition-state bits additionally set; any other event id leaves
`message` at 0 and nothing is posted. -/
def PostKeyMsgFromAWTKeyEvent (id : KeyEventID) (k : AWTKeyCode)
    (location : KeyLocation) : Option PostedKeyMsg :=
  let lParam0 : Nat := 1
  let lParam1 := if location = .right then lParam0 ||| EXTENDED_KEY else lParam0
  let wParam := WindowsKeyCodeFromAWTKeyCode k location
  match id with
  | .pressed => some ⟨WM_KEYDOWN, wParam, lParam1⟩
  | .released =>
    some ⟨WM_KEYUP, wParam, lParam1 ||| PREVIOUS_KEY_STATE_BIT ||| TRANSITION_STATE_BIT⟩
  | .typed => none

/-! ## Claim C7 -/

/-- C7: for every host key event whose key code is covered by the translation
table (every `AWTKeyCode`) and any reported location, the posted press message
is a `WM_KEYDOWN` and the posted release message a `WM_KEYUP`; both carry the
mapped Windows virtual key code in `wParam`; the extended-key bit (bit 24 of
`lParam`) is set in each exactly when the host reports the right-hand
location; the press `lParam` is exactly repeat-count 1 plus (possibly) the
extended-key bit, with every other bit zero; and the release `lParam`
additionally sets exactly the previous-key-state and transition-state bits. -/
theorem c7_key_event_translation (k : AWTKeyCode) (loc : KeyLocation) :
    PostKeyMsgFromAWTKeyEvent .pressed k loc
      = some ⟨WM_KEYDOWN, WindowsKeyCodeFromAWTKeyCode k loc,
          1 + (if loc = .right then EXTENDED_KEY else 0)⟩
    ∧ PostKeyMsgFromAWTKeyEvent .released k loc
      = some ⟨WM_KEYUP, WindowsKeyCodeFromAWTKeyCode k loc,
          1 + (if loc = .right then EXTENDED_KEY else 0)
            + PREVIOUS_KEY_STATE_BIT + TRANSITION_STATE_BIT⟩
    ∧ (Nat.testBit (1 + (if loc = .right then EXTENDED_KEY else 0)) 24 = true
        ↔ loc = .right)
    ∧ (Nat.testBit (1 + (if loc = .right then EXTENDED_KEY else 0)
        + PREVIOUS_KEY_STATE_BIT + TRANSITION_STATE_BIT) 24 = true
        ↔ loc = .right) := by
  cases loc <;> exact ⟨rfl, rfl, by decide, by decide⟩

/-! ## HTML buffer encoding over JNI (WindowsWebViewJNI.cpp)

A Java string is modelled as its list of UTF-16 code units (`List Nat`); the
Java-side `String.getBytes(charsetName)` encoder is an external black box,
passed in as a charset-indexed function from strings to byte lists. -/

/-- `JNU_GetStringCharsUTF16` (WindowsWebViewJNI.cpp lines 85-125): calls
`jstr.getBytes("UTF-16LE")`, allocates `len + 2` bytes, writes the byte order
marker `0xFF 0xFE` into the first two bytes, copies the encoded bytes after
it, and reports `*size = len + 2` (the trailing NUL byte it also writes is not
part of the reported data).  Returns the buffer contents and the reported
size. -/
def JNU_GetStringCharsUTF16 (getBytes : List Char → List Nat → List Nat)
    (jstr : List Nat) : List Nat × Nat :=
  let bytes := getBytes (String.toList "UTF-16LE") jstr
  (255 :: 254 :: bytes, bytes.length + 2)

/-- `SetHTMLString` (WindowsWebViewJNI.cpp lines 207-242): for a non-null HTML
string, convert it through `JNU_GetStringCharsUTF16`; for a null one use an
empty buffer of length 0.  The buffer and length are handed to
`HTMLMoniker::SetHTML` and the base URL to `HTMLMoniker::SetBaseURL`; the
result is the moniker posted to the window with `WM_SET_HTML`, returned here
together with the byte length passed alongside the buffer. -/
def SetHTMLString (getBytes : List Char → List Nat → List Nat)
    (html : Option (List Nat)) (baseUrl : List Char) : Moniker × Nat :=
  match html with
  | some s =>
    let r := JNU_GetStringCharsUTF16 getBytes s
    (⟨r.1, baseUrl⟩, r.2)
  | none => (⟨[], baseUrl⟩, 0)

/-! ## Claim C8 -/

/-- C8: for every non-null HTML string handed to `setHtml`, the byte buffer
delivered to the engine (through the moniker) is the string's `"UTF-16LE"`
encoding preceded by the two byte-order-mark bytes `0xFF 0xFE`, and the byte
length reported alongside the buffer is the encoded length plus the two BOM
bytes.  `getBytes` is the host's charset encoder. -/
theorem c8_setHtml_utf16le_bom (getBytes : List Char → List Nat → List Nat)
    (s : List Nat) (baseUrl : List Char) :
    (SetHTMLString getBytes (some s) baseUrl).1.html
      = 255 :: 254 :: getBytes (String.toList "UTF-16LE") s
    ∧ (SetHTMLString getBytes (some s) baseUrl).2
      = (getBytes (String.toList "UTF-16LE") s).length + 2 :=
  ⟨rfl, rfl⟩

/-! ## Frame capture and the bitmap mutex (WebViewWindow.cpp)

Claim C9 is about where, relative to the bitmap-mutex critical section, the
update-time stamp is written.  That is a structural property of the capture
routine, so the routine is modelled as its sequence of relevant events. -/

/-- The events of one capture, in the order the code performs them. -/
inductive CaptureEvent where
  | acquireBitmapMutex
  | writeBitmap
  | releaseBitmapMutex
  | writeUpdateTime
  | findLinks
  | notifyAdviseSink
deriving DecidableEq, Repr

/-- Event trace of `WebViewWindow::CaptureBitMap` (WebViewWindow.cpp lines
1158-1253): the critical section `MutexLock lock(bitmapMutex)` (lines
1222-1245) surrounds the creation of the DIB and the `GetDIBits` copy of the
pixels into `captureBits`. -/
def CaptureBitMapTrace : List CaptureEvent :=
  [.acquireBitmapMutex, .writeBitmap, .releaseBitmapMutex]

/-- Event trace of `WebViewWindow::CaptureWebView` (WebViewWindow.cpp lines
468-512): `CaptureBitMap(pViewObject)`, then `this->updateTime =
GetTickCount()` (line 493, after `CaptureBitMap` has returned and its
`MutexLock` destructor has released the mutex), then `FindLinks` and the
advise-sink notification. -/
def CaptureWebViewTrace : List CaptureEvent :=
  CaptureBitMapTrace ++ [.writeUpdateTime, .findLinks, .notifyAdviseSink]

/-- Whether the bitmap mutex is held when the event at index `i` of `tr` runs:
more acquisitions than releases among the earlier events. -/
def mutexHeldAt (tr : List CaptureEvent) (i : Nat) : Bool :=
  (tr.take i).count .releaseBitmapMutex < (tr.take i).count .acquireBitmapMutex

/-! ## Claim C9 -/

/-- C9 counterexample.  The claim states that the update-time stamp is written
together with the bitmap under the per-instance bitmap mutex.  In the capture
trace the single `writeUpdateTime` event sits at index 3, outside the critical
section (the mutex was released at index 2), so it is *not* written under the
mutex. -/
theorem c9_updateTime_written_outside_mutex :
    CaptureWebViewTrace
      = [.acquireBitmapMutex, .writeBitmap, .releaseBitmapMutex,
          .writeUpdateTime, .findLinks, .notifyAdviseSink]
    ∧ CaptureWebViewTrace.count .writeUpdateTime = 1
    ∧ CaptureWebViewTrace.indexOf .writeUpdateTime = 3
    ∧ mutexHeldAt CaptureWebViewTrace 3 = false := by
  decide

/-- C9 as amended: the bitmap itself is written under the bitmap mutex (the
single `writeBitmap` event, at index 1, runs with the mutex held), and the
update-time stamp is written after the mutex has been released -- in program
order after the bitmap write, not together with it inside the critical
section. -/
theorem c9_bitmap_under_mutex_stamp_after :
    CaptureWebViewTrace.count .writeBitmap = 1
    ∧ CaptureWebViewTrace.indexOf .writeBitmap = 1
    ∧ mutexHeldAt CaptureWebViewTrace 1 = true
    ∧ CaptureWebViewTrace.count .writeUpdateTime = 1
    ∧ CaptureWebViewTrace.indexOf .writeUpdateTime = 3
    ∧ mutexHeldAt CaptureWebViewTrace 3 = false
    ∧ CaptureWebViewTrace.indexOf .writeBitmap
        < CaptureWebViewTrace.indexOf .writeUpdateTime := by
  decide

/-! ## Link rectangle extraction (WebViewWindow.cpp)

The DOM data that `GetLinkParams` reads through MSHTML interfaces is passed in
as an `AnchorInput` record: the anchor's resolved URL (`GetLinkUrl` result,
null when the anchor is rejected), target and MIME type, its
`getBoundingClientRect`, its current-style `overflow` and `display`
attributes, its `getClientRects` line boxes and its `img` descendants with
their visibility and bounding rectangles.  Rectangle coordinates are `long`s
(`RECT`), modelled as `Int`. -/

/-- A Windows `RECT`. -/
structure Rect where
  left : Int
  top : Int
  right : Int
  bottom : Int
deriving DecidableEq, Repr

/-- `SetRect(&r, 0, 0, 0, 0)`. -/
def zeroRect : Rect := ⟨0, 0, 0, 0⟩

/-- `WebViewWindow::RectsIntersect` (WebViewWindow.cpp lines 1791-1797). -/
def WebViewWindow.RectsIntersect (elementRect viewport : Rect) : Bool :=
  decide (elementRect.right > viewport.left)
    && decide (elementRect.bottom > viewport.top)
    && decide (elementRect.left < viewport.right)
    && decide (elementRect.top < viewport.bottom)

/-- `WebViewWindow::IsEmptyRect` (WebViewWindow.cpp lines 1840-1846), for a
non-null argument: zero width *and* zero height. -/
def WebViewWindow.IsEmptyRect (r : Rect) : Bool :=
  decide (r.right - r.left = 0) && decide (r.bottom - r.top = 0)

/-- `WebViewWindow::ComputeRectIntersect` (WebViewWindow.cpp lines
1799-1815): the component-wise intersection when `RectsIntersect` holds, the
zero rectangle otherwise. -/
def WebViewWindow.ComputeRectIntersect (r1 r2 : Rect) : Rect :=
  if WebViewWindow.RectsIntersect r1 r2 then
    ⟨max r1.left r2.left, max r1.top r2.top, min r1.right r2.right, min r1.bottom r2.bottom⟩
  else zeroRect

/-- `WebViewWindow::ComputeRectUnion` (WebViewWindow.cpp lines 1817-1838): an
empty operand (in the `IsEmptyRect` sense) is ignored; otherwise the
axis-aligned bounding box of the two. -/
def WebViewWindow.ComputeRectUnion (r1 r2 : Rect) : Rect :=
  if WebViewWindow.IsEmptyRect r1 then r2
  else if WebViewWindow.IsEmptyRect r2 then r1
  else ⟨min r1.left r2.left, min r1.top r2.top, max r1.right r2.right, max r1.bottom r2.bottom⟩

/-- An `img` element under the anchor: its `IsVisible` status and its
`getBoundingClientRect`. -/
structure ImageInput where
  visible : Bool
  rect : Rect
deriving DecidableEq, Repr

/-- The DOM data `GetLinkParams` reads for one anchor element. -/
structure AnchorInput where
  url : Option (List Char)
  target : Option (List Char)
  mimeType : Option (List Char)
  linkBounds : Rect
  overflowStyle : List Char
  displayStyle : Option (List Char)
  clientRects : List Rect
  images : List ImageInput
deriving DecidableEq, Repr

/-- `LinkParams` (LinkParams.h): URL, MIME type, target, sub-rectangle list
and bounding box. -/
structure LinkParams where
  url : List Char
  target : Option (List Char)
  mimeType : Option (List Char)
  rects : List Rect
  bounds : Rect
deriving DecidableEq, Repr

/-- The y-axis flip to GL coordinates applied in the final loop of
`GetLinkParams` (WebViewWindow.cpp lines 1587-1589 and 1595-1597):
`top := windowHeight - top`, `bottom := windowHeight - bottom`. -/
def flipY (windowHeight : Int) (r : Rect) : Rect :=
  ⟨r.left, windowHeight - r.top, r.right, windowHeight - r.bottom⟩

/-- The visible rectangle of one image inside the `AddImageRects` loop
(WebViewWindow.cpp lines 1751-1775): the image's bounding rectangle clipped
against the viewport, and clipped further against the link's visible rectangle
when the anchor's `overflow` style is `hidden` or `scroll`. -/
def imageVisibleRect (img : ImageInput) (overflowStyle : List Char)
    (linkRect viewport : Rect) : Rect :=
  let r := WebViewWindow.ComputeRectIntersect img.rect viewport
  if overflowStyle = String.toList "hidden" ∨ overflowStyle = String.toList "scroll"
  then WebViewWindow.ComputeRectIntersect r linkRect
  else r

/-- `WebViewWindow::AddImageRects` (WebViewWindow.cpp lines 1716-1789): for
each visible image, compute its visible rectangle and append it unless the
result is empty. -/
def WebViewWindow.AddImageRects (images : List ImageInput) (overflowStyle : List Char)
    (linkRect viewport : Rect) : List Rect :=
  images.foldl
    (fun acc img =>
      if img.visible then
        if WebViewWindow.IsEmptyRect (imageVisibleRect img overflowStyle linkRect viewport)
        then acc
        else acc ++ [imageVisibleRect img overflowStyle linkRect viewport]
      else acc)
    []

/-- `WebViewWindow::AddLineBoxRects` (WebViewWindow.cpp lines 1676-1714):
append each line-box rectangle that intersects the viewport, unclipped. -/
def WebViewWindow.AddLineBoxRects (rects : List Rect) (viewport : Rect) : List Rect :=
  rects.filter (fun r => WebViewWindow.RectsIntersect r viewport)

/-- The link's visible rectangle: its bounding box clipped by the document's
visible rectangle (WebViewWindow.cpp line 1517, note the argument order
`(viewport, linkBounds)`). -/
def linkVisibleRectOf (a : AnchorInput) (viewport : Rect) : Rect :=
  WebViewWindow.ComputeRectIntersect viewport a.linkBounds

/-- The image rectangles collected for the anchor (WebViewWindow.cpp line
1524). -/
def imgRectsOf (a : AnchorInput) (viewport : Rect) : List Rect :=
  WebViewWindow.AddImageRects a.images a.overflowStyle (linkVisibleRectOf a viewport) viewport

/-- The anchor's full pre-clip rectangle list (WebViewWindow.cpp lines
1534-1557): the image rectangles, followed by either the link's clipped
bounding rectangle -- when the anchor has no line boxes or its `display` style
is `block` -- or its viewport-intersecting line boxes. -/
def collectedRectsOf (a : AnchorInput) (viewport : Rect) : List Rect :=
  if a.clientRects.length = 0 ∨ a.displayStyle = some (String.toList "block") then
    imgRectsOf a viewport ++ [linkVisibleRectOf a viewport]
  else
    imgRectsOf a viewport ++ WebViewWindow.AddLineBoxRects a.clientRects viewport

/-- `WebViewWindow::GetLinkParams` (WebViewWindow.cpp lines 1466-1602).

* A null URL (`GetLinkUrl` failed or the resolver yielded nothing usable)
  rejects the anchor.
* An anchor whose visible rectangle is empty and which contributes no image
  rectangles is rejected (line 1528), as is one whose final rectangle list is
  empty (line 1563).
* The bounding box is the `ComputeRectUnion` fold over the *pre-clip*
  rectangles (starting from the zero rectangle), then clipped against the
  viewport; each stored sub-rectangle is clipped against the viewport; all of
  them are then flipped into bottom-left-origin texture coordinates using the
  window height. -/
def WebViewWindow.GetLinkParams (a : AnchorInput) (viewport : Rect)
    (windowHeight : Int) : Option LinkParams :=
  match a.url with
  | none => none
  | some url =>
    if WebViewWindow.IsEmptyRect (linkVisibleRectOf a viewport)
        ∧ imgRectsOf a viewport = [] then none
    else
      let rects := collectedRectsOf a viewport
      if rects = [] then none
      else
        let bbox := rects.foldl WebViewWindow.ComputeRectUnion zeroRect
        some
          { url := url, target := a.target, mimeType := a.mimeType,
            rects := rects.map
              (fun r => flipY windowHeight (WebViewWindow.ComputeRectIntersect r viewport)),
            bounds := flipY windowHeight (WebViewWindow.ComputeRectIntersect bbox viewport) }


/-- A proper (non-degenerate) viewport: positive width and height. -/
def Rect.properViewport (v : Rect) : Prop := v.left < v.right ∧ v.top < v.bottom

/-- The invariant satisfied by every rectangle `GetLinkParams` handles: either
it intersects the viewport or it is the zero rectangle. -/
def rectNearViewport (v r : Rect) : Prop :=
  WebViewWindow.RectsIntersect r v = true ∨ r = zeroRect

theorem rectsIntersect_iff {e w : Rect} :
    WebViewWindow.RectsIntersect e w = true ↔
      w.left < e.right ∧ w.top < e.bottom ∧ e.left < w.right ∧ e.top < w.bottom := by
  simp [WebViewWindow.RectsIntersect, and_assoc]

theorem isEmptyRect_iff {r : Rect} :
    WebViewWindow.IsEmptyRect r = true ↔ r.right - r.left = 0 ∧ r.bottom - r.top = 0 := by
  simp [WebViewWindow.IsEmptyRect]

theorem computeRectIntersect_pos {r1 r2 : Rect}
    (h : WebViewWindow.RectsIntersect r1 r2 = true) :
    WebViewWindow.ComputeRectIntersect r1 r2
      = ⟨max r1.left r2.left, max r1.top r2.top,
          min r1.right r2.right, min r1.bottom r2.bottom⟩ := by
  simp [WebViewWindow.ComputeRectIntersect, h]

theorem computeRectIntersect_neg {r1 r2 : Rect}
    (h : ¬ WebViewWindow.RectsIntersect r1 r2 = true) :
    WebViewWindow.ComputeRectIntersect r1 r2 = zeroRect := by
  simp [WebViewWindow.ComputeRectIntersect, h]

/-- Clipping any rectangle against a proper viewport lands in the invariant
class. -/
theorem clip_viewport_inv {v : Rect} (hv : Rect.properViewport v) (x : Rect) :
    rectNearViewport v (WebViewWindow.ComputeRectIntersect x v) := by
  by_cases h : WebViewWindow.RectsIntersect x v = true
  · left
    rw [computeRectIntersect_pos h]
    rw [rectsIntersect_iff] at h ⊢
    obtain ⟨hv1, hv2⟩ := hv
    dsimp only
    omega
  · right; exact computeRectIntersect_neg h

/-- Same, for the flipped argument order used at WebViewWindow.cpp line 1517. -/
theorem clip_viewport_inv_left {v : Rect} (hv : Rect.properViewport v) (x : Rect) :
    rectNearViewport v (WebViewWindow.ComputeRectIntersect v x) := by
  by_cases h : WebViewWindow.RectsIntersect v x = true
  · left
    rw [computeRectIntersect_pos h]
    rw [rectsIntersect_iff] at h ⊢
    obtain ⟨hv1, hv2⟩ := hv
    dsimp only
    omega
  · right; exact computeRectIntersect_neg h

/-- `ComputeRectIntersect` keeps the invariant class closed. -/
theorem computeRectIntersect_inv {v : Rect} (hv : Rect.properViewport v) {x y : Rect}
    (hx : rectNearViewport v x) (hy : rectNearViewport v y) :
    rectNearViewport v (WebViewWindow.ComputeRectIntersect x y) := by
  by_cases h : WebViewWindow.RectsIntersect x y = true
  · rw [computeRectIntersect_pos h]
    rw [rectsIntersect_iff] at h
    obtain ⟨hv1, hv2⟩ := hv
    rcases hx with hx | rfl
    · rcases hy with hy | rfl
      · left
        rw [rectsIntersect_iff] at hx hy ⊢
        dsimp only
        omega
      · right
        rw [rectsIntersect_iff] at hx
        simp only [zeroRect, Rect.mk.injEq] at h ⊢
        omega
    · right
      simp only [zeroRect, Rect.mk.injEq] at h ⊢
      omega
  · right; exact computeRectIntersect_neg h

/-- Clipping an "empty" (point-like) rectangle that intersects the viewport is
the identity. -/
theorem point_clip {v x : Rect} (hx : WebViewWindow.RectsIntersect x v = true)
    (hex : WebViewWindow.IsEmptyRect x = true) :
    WebViewWindow.ComputeRectIntersect x v = x := by
  rw [computeRectIntersect_pos hx]
  rw [rectsIntersect_iff] at hx
  rw [isEmptyRect_iff] at hex
  obtain ⟨xl, xt, xr, xb⟩ := x
  rw [Rect.mk.injEq]
  dsimp only at hx hex ⊢
  omega

/-- Clipping against a proper viewport preserves (non-)emptiness of a
rectangle that intersects it. -/
theorem clip_isEmpty_eq {v x : Rect} (hv : Rect.properViewport v)
    (hx : WebViewWindow.RectsIntersect x v = true) :
    WebViewWindow.IsEmptyRect (WebViewWindow.ComputeRectIntersect x v)
      = WebViewWindow.IsEmptyRect x := by
  rw [computeRectIntersect_pos hx]
  rw [rectsIntersect_iff] at hx
  obtain ⟨hv1, hv2⟩ := hv
  cases hE : WebViewWindow.IsEmptyRect x with
  | true =>
    rw [isEmptyRect_iff] at hE ⊢
    dsimp only
    omega
  | false =>
    rw [Bool.eq_false_iff] at hE ⊢
    rw [ne_eq, isEmptyRect_iff] at hE ⊢
    dsimp only
    omega

/-- The zero rectangle clips to itself against any rectangle. -/
theorem clip_zeroRect (v : Rect) :
    WebViewWindow.ComputeRectIntersect zeroRect v = zeroRect := by
  by_cases h : WebViewWindow.RectsIntersect zeroRect v = true
  · rw [computeRectIntersect_pos h]
    rw [rectsIntersect_iff] at h
    simp only [zeroRect, Rect.mk.injEq] at h ⊢
    omega
  · exact computeRectIntersect_neg h

/-- `ComputeRectUnion` keeps the invariant class closed. -/
theorem computeRectUnion_inv {v : Rect} {x y : Rect}
    (hx : rectNearViewport v x) (hy : rectNearViewport v y) :
    rectNearViewport v (WebViewWindow.ComputeRectUnion x y) := by
  by_cases hex : WebViewWindow.IsEmptyRect x = true
  · simpa [WebViewWindow.ComputeRectUnion, hex] using hy
  · by_cases hey : WebViewWindow.IsEmptyRect y = true
    · simpa [WebViewWindow.ComputeRectUnion, hex, hey] using hx
    · rcases hx with hx | rfl
      · rcases hy with hy | rfl
        · left
          simp only [WebViewWindow.ComputeRectUnion, if_neg hex, if_neg hey]
          rw [rectsIntersect_iff] at hx hy ⊢
          dsimp only
          omega
        · exact absurd (by decide : WebViewWindow.IsEmptyRect zeroRect = true) hey
      · exact absurd (by decide : WebViewWindow.IsEmptyRect zeroRect = true) hex

/-- Clipping against the viewport distributes over `ComputeRectUnion` on the
invariant class. -/
theorem clip_union_dist {v : Rect} (hv : Rect.properViewport v) {x y : Rect}
    (hx : rectNearViewport v x) (hy : rectNearViewport v y) :
    WebViewWindow.ComputeRectIntersect (WebViewWindow.ComputeRectUnion x y) v
      = WebViewWindow.ComputeRectUnion (WebViewWindow.ComputeRectIntersect x v)
          (WebViewWindow.ComputeRectIntersect y v) := by
  have hez : WebViewWindow.IsEmptyRect zeroRect = true := by decide
  rcases hx with hx | rfl
  · rcases hy with hy | rfl
    · by_cases hex : WebViewWindow.IsEmptyRect x = true
      · have hcx : WebViewWindow.ComputeRectIntersect x v = x := point_clip hx hex
        simp only [WebViewWindow.ComputeRectUnion, if_pos hex, hcx]
      · by_cases hey : WebViewWindow.IsEmptyRect y = true
        · have hcy : WebViewWindow.ComputeRectIntersect y v = y := point_clip hy hey
          have hce : WebViewWindow.IsEmptyRect (WebViewWindow.ComputeRectIntersect x v)
              = false := by
            rw [clip_isEmpty_eq hv hx]; exact Bool.eq_false_iff.mpr hex
          simp only [WebViewWindow.ComputeRectUnion, if_neg hex, if_pos hey, hcy, hce,
            Bool.false_eq_true, if_false]
        · have hcex : WebViewWindow.IsEmptyRect (WebViewWindow.ComputeRectIntersect x v)
              = false := by
            rw [clip_isEmpty_eq hv hx]; exact Bool.eq_false_iff.mpr hex
          have hcey : WebViewWindow.IsEmptyRect (WebViewWindow.ComputeRectIntersect y v)
              = false := by
            rw [clip_isEmpty_eq hv hy]; exact Bool.eq_false_iff.mpr hey
          have hxI := rectsIntersect_iff.mp hx
          have hyI := rectsIntersect_iff.mp hy
          obtain ⟨hv1, hv2⟩ := hv
          have hUeq : WebViewWindow.ComputeRectUnion x y
              = ⟨min x.left y.left, min x.top y.top,
                  max x.right y.right, max x.bottom y.bottom⟩ := by
            simp only [WebViewWindow.ComputeRectUnion, if_neg hex, if_neg hey]
          have hUI : WebViewWindow.RectsIntersect (WebViewWindow.ComputeRectUnion x y) v
              = true := by
            rw [hUeq, rectsIntersect_iff]
            dsimp only
            omega
          rw [computeRectIntersect_pos hUI, computeRectIntersect_pos hx,
            computeRectIntersect_pos hy, hUeq]
          rw [computeRectIntersect_pos hx] at hcex
          rw [computeRectIntersect_pos hy] at hcey
          simp only [WebViewWindow.ComputeRectUnion, hcex, hcey, Bool.false_eq_true, if_false,
            Rect.mk.injEq]
          omega
    · by_cases hex : WebViewWindow.IsEmptyRect x = true
      · have hcx : WebViewWindow.ComputeRectIntersect x v = x := point_clip hx hex
        simp only [WebViewWindow.ComputeRectUnion, if_pos hex, clip_zeroRect, hcx]
      · have hce : WebViewWindow.IsEmptyRect (WebViewWindow.ComputeRectIntersect x v)
            = false := by
          rw [clip_isEmpty_eq hv hx]; exact Bool.eq_false_iff.mpr hex
        simp only [WebViewWindow.ComputeRectUnion, if_neg hex, if_pos hez, clip_zeroRect,
          hce, Bool.false_eq_true, if_false]
  · simp only [WebViewWindow.ComputeRectUnion, if_pos hez, clip_zeroRect]



/-- Clipping against the viewport distributes over the `ComputeRectUnion`
fold that `GetLinkParams` uses for the bounding box, as long as every
rectangle involved is in the invariant class. -/
theorem clip_foldl_union {v : Rect} (hv : Rect.properViewport v) :
    ∀ (rs : List Rect) (acc : Rect),
      (∀ r ∈ rs, rectNearViewport v r) → rectNearViewport v acc →
      WebViewWindow.ComputeRectIntersect (rs.foldl WebViewWindow.ComputeRectUnion acc) v
        = (rs.map (fun r => WebViewWindow.ComputeRectIntersect r v)).foldl
            WebViewWindow.ComputeRectUnion (WebViewWindow.ComputeRectIntersect acc v) := by
  intro rs
  induction rs with
  | nil => intro acc _ _; rfl
  | cons r rest ih =>
    intro acc hrs hacc
    have hr : rectNearViewport v r := hrs r (List.mem_cons_self r rest)
    have hrest : ∀ s ∈ rest, rectNearViewport v s :=
      fun s hs => hrs s (List.mem_cons_of_mem r hs)
    simp only [List.foldl_cons, List.map_cons]
    rw [ih (WebViewWindow.ComputeRectUnion acc r) hrest (computeRectUnion_inv hacc hr),
      clip_union_dist hv hacc hr]

/-- Every rectangle produced by `AddImageRects` is non-empty and is the
visible rectangle of one of the images. -/
theorem addImageRects_mem {images : List ImageInput} {ovf : List Char}
    {lr v r : Rect}
    (h : r ∈ WebViewWindow.AddImageRects images ovf lr v) :
    ¬ WebViewWindow.IsEmptyRect r = true
    ∧ ∃ img ∈ images, r = imageVisibleRect img ovf lr v := by
  have main : ∀ (l : List ImageInput) (acc : List Rect),
      r ∈ l.foldl
        (fun acc img =>
          if img.visible then
            if WebViewWindow.IsEmptyRect (imageVisibleRect img ovf lr v) then acc
            else acc ++ [imageVisibleRect img ovf lr v]
          else acc) acc →
      r ∈ acc ∨ (¬ WebViewWindow.IsEmptyRect r = true
        ∧ ∃ img ∈ l, r = imageVisibleRect img ovf lr v) := by
    intro l
    induction l with
    | nil => intro acc h; exact Or.inl h
    | cons img rest ih =>
      intro acc h
      simp only [List.foldl_cons] at h
      rcases ih _ h with hacc | ⟨hne, img2, hmem, heq⟩
      · by_cases hvis : img.visible = true
        · by_cases hemp :
            WebViewWindow.IsEmptyRect (imageVisibleRect img ovf lr v) = true
          · rw [if_pos hvis, if_pos hemp] at hacc
            exact Or.inl hacc
          · rw [if_pos hvis, if_neg hemp] at hacc
            rcases List.mem_append.mp hacc with h2 | h2
            · exact Or.inl h2
            · refine Or.inr ⟨?_, img, List.mem_cons_self img rest, ?_⟩
              · rw [List.mem_singleton.mp h2]; exact hemp
              · exact List.mem_singleton.mp h2
        · rw [if_neg hvis] at hacc
          exact Or.inl hacc
      · exact Or.inr ⟨hne, img2, List.mem_cons_of_mem img hmem, heq⟩
  rcases main images [] h with habs | hgood
  · exact absurd habs (List.not_mem_nil r)
  · exact hgood

/-- Every rectangle `GetLinkParams` collects before the final clip-and-flip
loop is in the invariant class: it intersects the viewport or is the zero
rectangle. -/
theorem collectedRectsOf_inv (a : AnchorInput) {v : Rect} (hv : Rect.properViewport v) :
    ∀ r ∈ collectedRectsOf a v, rectNearViewport v r := by
  intro r hr
  have himg : ∀ s ∈ imgRectsOf a v, rectNearViewport v s := by
    intro s hs
    obtain ⟨hne, img, hmem, heq⟩ := addImageRects_mem hs
    subst heq
    unfold imageVisibleRect
    by_cases hovf : a.overflowStyle = String.toList "hidden"
        ∨ a.overflowStyle = String.toList "scroll"
    · rw [if_pos hovf]
      exact computeRectIntersect_inv hv (clip_viewport_inv hv img.rect)
        (clip_viewport_inv_left hv a.linkBounds)
    · rw [if_neg hovf]
      exact clip_viewport_inv hv img.rect
  unfold collectedRectsOf at hr
  by_cases hcond : a.clientRects.length = 0 ∨ a.displayStyle = some (String.toList "block")
  · rw [if_pos hcond] at hr
    rcases List.mem_append.mp hr with h2 | h2
    · exact himg r h2
    · rw [List.mem_singleton.mp h2]
      exact clip_viewport_inv_left hv a.linkBounds
  · rw [if_neg hcond] at hr
    rcases List.mem_append.mp hr with h2 | h2
    · exact himg r h2
    · unfold WebViewWindow.AddLineBoxRects at h2
      exact Or.inl ((List.mem_filter.mp h2).2)

/-- The GL-coordinate flip is an involution. -/
theorem flipY_flipY (windowHeight : Int) (r : Rect) :
    flipY windowHeight (flipY windowHeight r) = r := by
  obtain ⟨l, t, rt, b⟩ := r
  simp only [flipY, Rect.mk.injEq]
  refine ⟨trivial, by omega, trivial, by omega⟩



/-- C2 as amended: for every `LinkRecord` produced by `GetLinkParams` against
a proper viewport, every stored sub-rectangle (mapped back from the
bottom-left-origin texture coordinates) either intersects the viewport or is
the zero rectangle -- the empty placeholder stored when a block-display or
line-box-free anchor lies outside the viewport but contributes visible
images -- and the bounding rectangle equals the `ComputeRectUnion` fold (the
axis-aligned union that ignores empty rectangles) of the stored, already
viewport-clipped sub-rectangles. -/
theorem c2_linkParams_invariant (a : AnchorInput) (v : Rect) (H : Int)
    (lp : LinkParams) (hv : Rect.properViewport v)
    (h : WebViewWindow.GetLinkParams a v H = some lp) :
    (∀ r ∈ lp.rects,
      WebViewWindow.RectsIntersect (flipY H r) v = true ∨ flipY H r = zeroRect)
    ∧ lp.bounds
      = flipY H ((lp.rects.map (flipY H)).foldl WebViewWindow.ComputeRectUnion zeroRect) := by
  cases hu : a.url with
  | none =>
    simp only [WebViewWindow.GetLinkParams, hu] at h
    exact absurd h (by simp)
  | some url =>
    simp only [WebViewWindow.GetLinkParams, hu] at h
    by_cases h1 : WebViewWindow.IsEmptyRect (linkVisibleRectOf a v) = true
        ∧ imgRectsOf a v = []
    · rw [if_pos h1] at h
      exact absurd h (by simp)
    · rw [if_neg h1] at h
      by_cases h2 : collectedRectsOf a v = []
      · rw [if_pos h2] at h
        exact absurd h (by simp)
      · rw [if_neg h2, Option.some.injEq] at h
        subst h
        constructor
        · intro r hr
          simp only [List.mem_map] at hr
          obtain ⟨p, hp, rfl⟩ := hr
          rw [flipY_flipY]
          exact clip_viewport_inv hv p
        · simp only [List.map_map]
          have hmaps : (collectedRectsOf a v).map
                ((flipY H) ∘ fun r => flipY H (WebViewWindow.ComputeRectIntersect r v))
              = (collectedRectsOf a v).map
                  (fun r => WebViewWindow.ComputeRectIntersect r v) := by
            apply List.map_congr_left
            intro p hp
            simp only [Function.comp_apply, flipY_flipY]
          rw [hmaps]
          have hfold := clip_foldl_union hv (collectedRectsOf a v) zeroRect
            (collectedRectsOf_inv a hv) (Or.inr rfl)
          rw [clip_zeroRect] at hfold
          rw [← hfold]



/-! ## Claim C2 -/

/-- C2 counterexample.  The claim states that every sub-rectangle of a
`LinkRecord` intersects the document viewport.  Concrete input: viewport
`(0,0)-(10,10)` (window height 10), an anchor with `display: block` whose
bounding rectangle `(20,20)-(30,30)` lies entirely outside the viewport, but
which contains one visible image at `(2,2)-(8,8)`.  The anchor is kept (the
image gives it a pickable area), and its stored rectangle list is the image
rectangle *plus* the anchor's clipped bounding rectangle, which is the zero
rectangle -- flipped to `(0,10)-(0,10)` -- and intersects nothing. -/
theorem c2_sub_rect_outside_viewport :
    WebViewWindow.GetLinkParams
        ⟨some (String.toList "x"), none, none, ⟨20, 20, 30, 30⟩, String.toList "visible",
          some (String.toList "block"), [], [⟨true, ⟨2, 2, 8, 8⟩⟩]⟩
        ⟨0, 0, 10, 10⟩ 10
      = some ⟨String.toList "x", none, none,
          [⟨2, 8, 8, 2⟩, ⟨0, 10, 0, 10⟩], ⟨2, 8, 8, 2⟩⟩
    ∧ (⟨0, 10, 0, 10⟩ : Rect) ∈ [(⟨2, 8, 8, 2⟩ : Rect), ⟨0, 10, 0, 10⟩]
    ∧ WebViewWindow.RectsIntersect (flipY 10 ⟨0, 10, 0, 10⟩) ⟨0, 0, 10, 10⟩ = false
    ∧ flipY 10 ⟨0, 10, 0, 10⟩ = zeroRect := by
  decide

/-- Witness for C2 (amended) at the concrete anchor of the counterexample. -/
theorem c2_linkParams_invariant_witness :
    (∀ r ∈ ([⟨2, 8, 8, 2⟩, ⟨0, 10, 0, 10⟩] : List Rect),
      WebViewWindow.RectsIntersect (flipY 10 r) ⟨0, 0, 10, 10⟩ = true
        ∨ flipY 10 r = zeroRect)
    ∧ (⟨2, 8, 8, 2⟩ : Rect)
      = flipY 10 ((([⟨2, 8, 8, 2⟩, ⟨0, 10, 0, 10⟩] : List Rect).map (flipY 10)).foldl
          WebViewWindow.ComputeRectUnion zeroRect) :=
  c2_linkParams_invariant
    ⟨some (String.toList "x"), none, none, ⟨20, 20, 30, 30⟩, String.toList "visible",
      some (String.toList "block"), [], [⟨true, ⟨2, 2, 8, 8⟩⟩]⟩
    ⟨0, 0, 10, 10⟩ 10
    ⟨String.toList "x", none, none, [⟨2, 8, 8, 2⟩, ⟨0, 10, 0, 10⟩], ⟨2, 8, 8, 2⟩⟩
    ⟨by decide, by decide⟩ (by decide)

end WebView
